import Mathlib

/-!
Shallow embedding of the request-validation and job-execution pipeline of
`src/main.py` (the `/generate` handler of the ONNX model generator service),
together with theorems settling the specification claims about it.

The embedding follows the source line by line:
* the configuration lists (lines 16-28),
* the ordered validation chain of `generate_model` (lines 44-73),
* the subprocess command and environment construction (lines 82-102),
* the supervised subprocess call, output check, archiving and response
  construction (lines 105-159), with the external world (subprocess
  behaviour, filesystem contents, archiver behaviour) abstracted into a
  `World` record consulted exactly where the source consults it.
-/

namespace OnnxGen

/-- The list `SUPPORTED_PRECISIONS` (src/main.py line 16). -/
def SUPPORTED_PRECISIONS : List String := ["fp16", "fp32", "int4", "int8"]

/-- The list `SUPPORTED_EXECUTION_PROVIDERS` (src/main.py line 17). -/
def SUPPORTED_EXECUTION_PROVIDERS : List String :=
  ["cpu", "cuda", "rocm", "dml", "webgpu", "NvTensorRtRtx"]

/-- The list `VALID_COMBINATIONS` (src/main.py lines 23-28). -/
def VALID_COMBINATIONS : List (String × String) :=
  [("fp32", "cpu"), ("fp32", "cuda"),
   ("fp16", "cuda"), ("fp16", "dml"), ("fp16", "NvTensorRtRtx"),
   ("bf16", "cuda"),
   ("int4", "cpu"), ("int4", "cuda"), ("int4", "dml"), ("int4", "webgpu")]

/-- Python `str` of a string (single-quoted), used when a list is
interpolated into an f-string error message. -/
def pyStr (s : String) : String := "\x27" ++ s ++ "\x27"

/-- Python `str` of a list of strings, as interpolated by the f-strings on
lines 60 and 66. -/
def pyStrList (l : List String) : String :=
  "[" ++ String.intercalate ", " (l.map pyStr) ++ "]"

/-- Python `str` of a list of string pairs, as interpolated by the f-string
on line 72. -/
def pyStrPairList (l : List (String × String)) : String :=
  "[" ++ String.intercalate ", "
    (l.map (fun p => "(" ++ pyStr p.1 ++ ", " ++ pyStr p.2 ++ ")")) ++ "]"

/-- An incoming `/generate` request after JSON field extraction
(src/main.py lines 44-51): `is_json` is Flask's content-type test,
`model` is `params.get("model")` (absent ↦ `none`), `precision` and
`execution_provider` carry the request values after the defaults
`"fp32"` / `"cpu"` have been applied, and `token` is the optional
HuggingFace token. -/
structure GenRequest where
  is_json : Bool
  model : Option String
  precision : String
  execution_provider : String
  token : Option String
deriving DecidableEq

/-- Which of the five ordered validation checks of src/main.py lines 44-73
fired. -/
inductive ValidationError where
  | badContentType
  | missingModel
  | unsupportedPrecision
  | unsupportedProvider
  | invalidCombination
deriving DecidableEq

/-- The ordered validation chain of `generate_model`
(src/main.py lines 44-73): content type, then missing/empty model
(Python truthiness: `None` and `""` both fail), then precision
membership, then execution-provider membership, then combination
membership.  Returns the first failing check, or `none` when all pass. -/
def validate (req : GenRequest) : Option ValidationError :=
  if req.is_json = false then some .badContentType
  else if req.model.getD "" = "" then some .missingModel
  else if req.precision ∉ SUPPORTED_PRECISIONS then some .unsupportedPrecision
  else if req.execution_provider ∉ SUPPORTED_EXECUTION_PROVIDERS then some .unsupportedProvider
  else if (req.precision, req.execution_provider) ∉ VALID_COMBINATIONS then some .invalidCombination
  else none

/-- Outcome of `subprocess.run(..., check=True, timeout=1800)`
(src/main.py lines 106-128): either `TimeoutExpired`, or the process
exited with a return code (nonzero raises `CalledProcessError`) and
captured stdout/stderr. -/
inductive ProcResult where
  | timeout
  | exited (returncode : Int) (stdout stderr : String)
deriving DecidableEq

/-- The external environment a single request interacts with: the name of
the scoped temporary directory, the parent process environment
(`os.environ`), the behaviour of the spawned subprocess as a function of
its argument list and environment, the post-run contents of the output
directory (`none` = path does not exist, `some l` = `os.listdir` result),
whether `shutil.make_archive` raises, and whether the archive file exists
afterwards. -/
structure World where
  temp_dir : String
  base_env : List (String × String)
  run : List String → List (String × String) → ProcResult
  output_entries : Option (List String)
  archive_result : Except String Unit
  archive_exists : Bool

/-- The subprocess argument list (src/main.py lines 82-88).  The token is
not among the arguments. -/
def build_command (model_name precision execution_provider output_path : String) :
    List String :=
  ["python", "-m", "onnxruntime_genai.models.builder",
   "--model", model_name,
   "--precision", precision,
   "--execution_provider", execution_provider,
   "--output", output_path]

/-- The subprocess environment (src/main.py lines 94-102): a copy of the
parent environment with either the two token variables set (when the token
is truthy), or the three offline/telemetry variables set (when it is not).
Later assignments shadow earlier bindings, as for a Python dict update. -/
def build_env (base : List (String × String)) (hf_token : Option String) :
    List (String × String) :=
  let t := hf_token.getD ""
  if t ≠ "" then
    base ++ [("HF_TOKEN", t), ("HUGGING_FACE_HUB_TOKEN", t)]
  else
    base ++ [("HF_HUB_DISABLE_TELEMETRY", "1"),
             ("TRANSFORMERS_OFFLINE", "0"),
             ("HF_HUB_OFFLINE", "0")]

/-- Dictionary lookup on the environment association list: the last
binding of a key wins, matching Python dict assignment semantics. -/
def envGet (env : List (String × String)) (k : String) : Option String :=
  env.foldl (fun acc p => if p.1 = k then some p.2 else acc) none

/-- Python `model_name.replace("/", "_")` (src/main.py line 136): with a
one-character pattern and a one-character replacement, `str.replace` is
exactly per-character substitution. -/
def replaceSlash (s : String) : String :=
  ⟨s.data.map fun c => if c = '/' then '_' else c⟩

/-- An HTTP response: either a JSON body with a status code (`jsonify(...), code`),
or a file attachment produced by `send_file` (src/main.py lines 150-155),
which Flask serves with status 200. -/
inductive Resp where
  | json (status : Nat) (body : List (String × String))
  | file (path download_name mimetype : String)
deriving DecidableEq

/-- The HTTP status of a response; Flask's `send_file` responds 200. -/
def Resp.statusCode : Resp → Nat
  | .json s _ => s
  | .file _ _ _ => 200

/-- What a single call of the handler produced: the response, whether the
scoped temporary directory of line 78 was created, and whether it was
removed again by the time the handler returned. -/
structure HandlerResult where
  resp : Resp
  temp_dir_created : Bool
  temp_dir_removed : Bool
deriving DecidableEq

/-- The `/generate` handler `generate_model` (src/main.py lines 39-159).
Validation failures return before any filesystem resource is allocated.
A request passing validation enters the `with tempfile.TemporaryDirectory`
block, whose context-manager semantics remove the directory and all its
contents on every exit path; the embedding records this as
`temp_dir_created = true, temp_dir_removed = true` on each of those paths. -/
def generate_model (req : GenRequest) (w : World) : HandlerResult :=
  match validate req with
  | some .badContentType =>
      ⟨.json 400 [("error", "Content-Type must be application/json")], false, false⟩
  | some .missingModel =>
      ⟨.json 400 [("error", "model parameter is required")], false, false⟩
  | some .unsupportedPrecision =>
      ⟨.json 400 [("error", "Unsupported precision: " ++ req.precision ++
        ". Supported: " ++ pyStrList SUPPORTED_PRECISIONS)], false, false⟩
  | some .unsupportedProvider =>
      ⟨.json 400 [("error", "Unsupported execution_provider: " ++ req.execution_provider ++
        ". Supported: " ++ pyStrList SUPPORTED_EXECUTION_PROVIDERS)], false, false⟩
  | some .invalidCombination =>
      ⟨.json 400 [("error", "Invalid combination: " ++ req.precision ++ " + " ++
        req.execution_provider ++ ". Valid combinations: " ++
        pyStrPairList VALID_COMBINATIONS)], false, false⟩
  | none =>
      let model_name := req.model.getD ""
      let output_path := w.temp_dir ++ "/model_output"
      let command := build_command model_name req.precision req.execution_provider output_path
      let env := build_env w.base_env req.token
      let resp :=
        match w.run command env with
        | .timeout =>
            Resp.json 408 [("error", "Model generation timed out (30 minutes limit)")]
        | .exited code out err =>
            if code ≠ 0 then
              Resp.json 500 [("error", "Model generation failed"),
                             ("details", err), ("stdout", out)]
            else if w.output_entries.getD [] = [] then
              Resp.json 500 [("error", "No output generated from model conversion")]
            else
              let archive_name := replaceSlash model_name ++ "_" ++
                req.precision ++ "_" ++ req.execution_provider
              let archive_path := w.temp_dir ++ "/" ++ archive_name
              match w.archive_result with
              | .error msg =>
                  Resp.json 500 [("error", "Archive creation failed: " ++ msg)]
              | .ok _ =>
                  let archive_file := archive_path ++ ".zip"
                  if w.archive_exists = false then
                    Resp.json 500 [("error", "Failed to create output archive")]
                  else
                    Resp.file archive_file (archive_name ++ ".zip") "application/zip"
      ⟨resp, true, true⟩

/-- A world whose subprocess always times out; used to instantiate
universally quantified theorems at a concrete input. -/
def timeoutWorld : World :=
  ⟨"/app/tmp/req0", [], fun _ _ => .timeout, none, .ok (), false⟩

/-- A world whose subprocess exits 0 after writing two files, and whose
archiver succeeds. -/
def successWorld : World :=
  ⟨"/app/tmp/req0", [], fun _ _ => .exited 0 "done" "",
   some ["model.onnx", "genai_config.json"], .ok (), true⟩

/-- A world whose subprocess exits 1 with diagnostic output. -/
def failWorld : World :=
  ⟨"/app/tmp/req0", [], fun _ _ => .exited 1 "partial stdout" "stack trace",
   none, .ok (), false⟩

/-- The `/generate` request of the end-to-end scenarios:
model gpt2, precision fp32, execution provider cpu, no token. -/
def gpt2Request : GenRequest := ⟨true, some "gpt2", "fp32", "cpu", none⟩

/-- The subprocess invocation a validated request leads to
(src/main.py lines 82-113): `subprocess.run` applied to the built command
and environment.  `generate_model` computes exactly this term in its
job-execution branch. -/
def job_outcome (req : GenRequest) (w : World) : ProcResult :=
  w.run
    (build_command (req.model.getD "") req.precision req.execution_provider
      (w.temp_dir ++ "/model_output"))
    (build_env w.base_env req.token)

/-- A request passes the whole validation chain exactly when the content
type is JSON, the model field is truthy, precision and execution provider
are members of their supported lists, and the pair is a valid combination. -/
lemma validate_eq_none_iff (req : GenRequest) :
    validate req = none ↔
      (req.is_json = true ∧ req.model.getD "" ≠ "" ∧
       req.precision ∈ SUPPORTED_PRECISIONS ∧
       req.execution_provider ∈ SUPPORTED_EXECUTION_PROVIDERS ∧
       (req.precision, req.execution_provider) ∈ VALID_COMBINATIONS) := by
  unfold validate
  split_ifs with h1 h2 h3 h4 h5 <;> simp_all

/-- Claim C1: over the declared supported precisions crossed with the
declared supported execution providers, a request with a non-empty model
passes the full validation pipeline if and only if the
(precision, execution provider) pair is one of the ten enumerated valid
combinations. -/
theorem c1_cartesian_product_valid_combinations
    (model p ep : String) (tok : Option String) (hm : model ≠ "")
    (hp : p ∈ SUPPORTED_PRECISIONS)
    (he : ep ∈ SUPPORTED_EXECUTION_PROVIDERS) :
    validate ⟨true, some model, p, ep, tok⟩ = none ↔
      (p, ep) ∈ ([("fp32", "cpu"), ("fp32", "cuda"),
        ("fp16", "cuda"), ("fp16", "dml"), ("fp16", "NvTensorRtRtx"),
        ("bf16", "cuda"),
        ("int4", "cpu"), ("int4", "cuda"), ("int4", "dml"),
        ("int4", "webgpu")] : List (String × String)) := by
  rw [validate_eq_none_iff]
  show _ ↔ (p, ep) ∈ VALID_COMBINATIONS
  simp [hm, hp, he]

/-- Witness for C1 at (fp32, cpu) with model gpt2. -/
theorem c1_cartesian_product_valid_combinations_witness :
    ("gpt2" : String) ≠ "" ∧
    "fp32" ∈ SUPPORTED_PRECISIONS ∧
    "cpu" ∈ SUPPORTED_EXECUTION_PROVIDERS ∧
    (validate ⟨true, some "gpt2", "fp32", "cpu", none⟩ = none ↔
      ("fp32", "cpu") ∈ ([("fp32", "cpu"), ("fp32", "cuda"),
        ("fp16", "cuda"), ("fp16", "dml"), ("fp16", "NvTensorRtRtx"),
        ("bf16", "cuda"),
        ("int4", "cpu"), ("int4", "cuda"), ("int4", "dml"),
        ("int4", "webgpu")] : List (String × String))) :=
  ⟨by decide, by decide, by decide,
   c1_cartesian_product_valid_combinations "gpt2" "fp32" "cpu" none
     (by decide) (by decide) (by decide)⟩

/-- Claim C2: a request carrying a model and precision bf16 is rejected at
the precision-membership check with the 400 unsupported-precision
response, for every execution provider — the combination check is never
reached — even though (bf16, cuda) is in the valid-combination list. -/
theorem c2_bf16_rejected_at_precision_check
    (model ep : String) (tok : Option String) (w : World) (hm : model ≠ "") :
    validate ⟨true, some model, "bf16", ep, tok⟩ =
      some ValidationError.unsupportedPrecision ∧
    generate_model ⟨true, some model, "bf16", ep, tok⟩ w =
      ⟨Resp.json 400 [("error", "Unsupported precision: bf16. Supported: " ++
        pyStrList SUPPORTED_PRECISIONS)], false, false⟩ ∧
    ("bf16", "cuda") ∈ VALID_COMBINATIONS := by
  have hv : validate ⟨true, some model, "bf16", ep, tok⟩ =
      some ValidationError.unsupportedPrecision := by
    unfold validate
    simp [hm, SUPPORTED_PRECISIONS]
  refine ⟨hv, ?_, by decide⟩
  unfold generate_model
  rw [hv]
  rfl

/-- Witness for C2 at model gpt2, provider cuda. -/
theorem c2_bf16_rejected_at_precision_check_witness :
    ("gpt2" : String) ≠ "" ∧
    (validate ⟨true, some "gpt2", "bf16", "cuda", none⟩ =
      some ValidationError.unsupportedPrecision ∧
     generate_model ⟨true, some "gpt2", "bf16", "cuda", none⟩ timeoutWorld =
      ⟨Resp.json 400 [("error", "Unsupported precision: bf16. Supported: " ++
        pyStrList SUPPORTED_PRECISIONS)], false, false⟩ ∧
     ("bf16", "cuda") ∈ VALID_COMBINATIONS) :=
  ⟨by decide,
   c2_bf16_rejected_at_precision_check "gpt2" "cuda" none timeoutWorld (by decide)⟩

/-- Claim C3: a request with a non-empty model, precision int8 and any
supported execution provider passes the precision check but is rejected at
the combination check with the 400 invalid-combination response. -/
theorem c3_int8_always_invalid_combination
    (model ep : String) (tok : Option String) (w : World) (hm : model ≠ "")
    (he : ep ∈ SUPPORTED_EXECUTION_PROVIDERS) :
    "int8" ∈ SUPPORTED_PRECISIONS ∧
    validate ⟨true, some model, "int8", ep, tok⟩ =
      some ValidationError.invalidCombination ∧
    generate_model ⟨true, some model, "int8", ep, tok⟩ w =
      ⟨Resp.json 400 [("error", "Invalid combination: " ++ "int8" ++ " + " ++ ep ++
        ". Valid combinations: " ++ pyStrPairList VALID_COMBINATIONS)],
       false, false⟩ := by
  have hnc : ("int8", ep) ∉ VALID_COMBINATIONS := by
    simp [VALID_COMBINATIONS]
  have hv : validate ⟨true, some model, "int8", ep, tok⟩ =
      some ValidationError.invalidCombination := by
    unfold validate
    simp [hm, he, hnc, SUPPORTED_PRECISIONS]
  refine ⟨by decide, hv, ?_⟩
  unfold generate_model
  rw [hv]

/-- Witness for C3 at the end-to-end scenario request gpt2 / int8 / cpu. -/
theorem c3_int8_always_invalid_combination_witness :
    ("gpt2" : String) ≠ "" ∧
    "cpu" ∈ SUPPORTED_EXECUTION_PROVIDERS ∧
    ("int8" ∈ SUPPORTED_PRECISIONS ∧
     validate ⟨true, some "gpt2", "int8", "cpu", none⟩ =
      some ValidationError.invalidCombination ∧
     generate_model ⟨true, some "gpt2", "int8", "cpu", none⟩ timeoutWorld =
      ⟨Resp.json 400 [("error", "Invalid combination: int8 + cpu" ++
        ". Valid combinations: " ++ pyStrPairList VALID_COMBINATIONS)],
       false, false⟩) :=
  ⟨by decide, by decide,
   c3_int8_always_invalid_combination "gpt2" "cpu" none timeoutWorld
     (by decide) (by decide)⟩

/-- Claim C4: a validated request whose subprocess hits the 1800-second
timeout yields the 408 timeout response — a response distinct from every
500 body — and the handler result does not depend on the output-directory
or archive state of the world, i.e. the output check and packaging are
never reached. -/
theorem c4_timeout_returns_408 (req : GenRequest) (w : World)
    (hv : validate req = none)
    (ht : job_outcome req w = ProcResult.timeout) :
    generate_model req w =
      ⟨Resp.json 408 [("error", "Model generation timed out (30 minutes limit)")],
       true, true⟩ ∧
    ∀ b : List (String × String),
      (generate_model req w).resp ≠ Resp.json 500 b := by
  have ht2 : w.run
      (build_command (req.model.getD "") req.precision req.execution_provider
        (w.temp_dir ++ "/model_output"))
      (build_env w.base_env req.token) = ProcResult.timeout := ht
  have hmain : generate_model req w =
      ⟨Resp.json 408 [("error", "Model generation timed out (30 minutes limit)")],
       true, true⟩ := by
    simp only [generate_model, hv]
    rw [ht2]
  refine ⟨hmain, fun b => ?_⟩
  rw [hmain]
  simp

/-- Witness for C4: the gpt2/fp32/cpu request against a timing-out world. -/
theorem c4_timeout_returns_408_witness :
    validate gpt2Request = none ∧
    job_outcome gpt2Request timeoutWorld = ProcResult.timeout ∧
    (generate_model gpt2Request timeoutWorld =
      ⟨Resp.json 408 [("error", "Model generation timed out (30 minutes limit)")],
       true, true⟩ ∧
     ∀ b : List (String × String),
       (generate_model gpt2Request timeoutWorld).resp ≠ Resp.json 500 b) :=
  ⟨by decide, rfl, c4_timeout_returns_408 gpt2Request timeoutWorld (by decide) rfl⟩

/-- Claim C5: a validated request whose subprocess exits 0 but whose
output directory is missing or empty yields the 500 empty-output
response, which differs from every non-zero-exit failure response; the
archiving stage is never consulted. -/
theorem c5_empty_output_returns_500 (req : GenRequest) (w : World)
    (out err : String)
    (hv : validate req = none)
    (hr : job_outcome req w = ProcResult.exited 0 out err)
    (ho : w.output_entries.getD [] = []) :
    (generate_model req w).resp =
      Resp.json 500 [("error", "No output generated from model conversion")] ∧
    ∀ d s : String,
      (generate_model req w).resp ≠
        Resp.json 500 [("error", "Model generation failed"),
                       ("details", d), ("stdout", s)] := by
  have hr2 : w.run
      (build_command (req.model.getD "") req.precision req.execution_provider
        (w.temp_dir ++ "/model_output"))
      (build_env w.base_env req.token) = ProcResult.exited 0 out err := hr
  have hmain : (generate_model req w).resp =
      Resp.json 500 [("error", "No output generated from model conversion")] := by
    simp only [generate_model, hv]
    rw [hr2]
    simp [ho]
  refine ⟨hmain, fun d s => ?_⟩
  rw [hmain]
  simp

/-- Witness for C5: the gpt2/fp32/cpu request against a world whose tool
exits 0 without creating the output directory. -/
theorem c5_empty_output_returns_500_witness :
    validate gpt2Request = none ∧
    job_outcome gpt2Request
      ⟨"/app/tmp/req0", [], fun _ _ => .exited 0 "done" "", none, .ok (), false⟩ =
      ProcResult.exited 0 "done" "" ∧
    (World.output_entries
      ⟨"/app/tmp/req0", [], fun _ _ => .exited 0 "done" "", none, .ok (), false⟩).getD [] = [] ∧
    (generate_model gpt2Request
      ⟨"/app/tmp/req0", [], fun _ _ => .exited 0 "done" "", none, .ok (), false⟩).resp =
      Resp.json 500 [("error", "No output generated from model conversion")] :=
  ⟨by decide, rfl, rfl,
   (c5_empty_output_returns_500 gpt2Request
     ⟨"/app/tmp/req0", [], fun _ _ => .exited 0 "done" "", none, .ok (), false⟩
     "done" "" (by decide) rfl rfl).1⟩

/-- Claim C6: a validated request whose subprocess exits non-zero yields a
500 response whose body forwards the captured stderr and stdout verbatim
as the details and stdout fields. -/
theorem c6_nonzero_exit_forwards_diagnostics (req : GenRequest) (w : World)
    (code : Int) (out err : String)
    (hv : validate req = none)
    (hr : job_outcome req w = ProcResult.exited code out err)
    (hc : code ≠ 0) :
    (generate_model req w).resp =
      Resp.json 500 [("error", "Model generation failed"),
                     ("details", err), ("stdout", out)] := by
  have hr2 : w.run
      (build_command (req.model.getD "") req.precision req.execution_provider
        (w.temp_dir ++ "/model_output"))
      (build_env w.base_env req.token) = ProcResult.exited code out err := hr
  simp only [generate_model, hv]
  rw [hr2]
  simp [hc]

/-- Witness for C6: the gpt2/fp32/cpu request against a world whose tool
exits 1 with diagnostic output. -/
theorem c6_nonzero_exit_forwards_diagnostics_witness :
    validate gpt2Request = none ∧
    job_outcome gpt2Request failWorld =
      ProcResult.exited 1 "partial stdout" "stack trace" ∧
    (1 : Int) ≠ 0 ∧
    (generate_model gpt2Request failWorld).resp =
      Resp.json 500 [("error", "Model generation failed"),
                     ("details", "stack trace"), ("stdout", "partial stdout")] :=
  ⟨by decide, rfl, by decide,
   c6_nonzero_exit_forwards_diagnostics gpt2Request failWorld 1
     "partial stdout" "stack trace" (by decide) rfl (by decide)⟩

/-- Claim C8: on every path on which the handler created the per-request
scoped temporary directory, the directory (with everything under it) has
been removed again when the handler returns — for every request and every
world, i.e. on the success, timeout, failed-exit, empty-output and
archive-failure paths alike. -/
theorem c8_temp_dir_always_removed (req : GenRequest) (w : World)
    (h : (generate_model req w).temp_dir_created = true) :
    (generate_model req w).temp_dir_removed = true := by
  rcases hve : validate req with _ | e
  · simp [generate_model, hve]
  · cases e <;> simp [generate_model, hve] at h

/-- Witness for C8: temporary directory created and removed on a concrete
run (timeout path). -/
theorem c8_temp_dir_always_removed_witness :
    (generate_model gpt2Request timeoutWorld).temp_dir_created = true ∧
    (generate_model gpt2Request timeoutWorld).temp_dir_removed = true :=
  ⟨rfl, c8_temp_dir_always_removed gpt2Request timeoutWorld rfl⟩

/-- Claim C7: the subprocess command never carries the auth token — two
requests differing only in their token field produce the identical
argument list — and the token reaches the child only through the
HF_TOKEN and HUGGING_FACE_HUB_TOKEN environment variables when present,
while an absent token instead sets HF_HUB_DISABLE_TELEMETRY=1,
TRANSFORMERS_OFFLINE=0 and HF_HUB_OFFLINE=0. -/
theorem c7_token_only_in_environment (req₁ req₂ : GenRequest)
    (output_path : String) (base : List (String × String)) (t : String)
    (hm : req₁.model = req₂.model) (hp : req₁.precision = req₂.precision)
    (he : req₁.execution_provider = req₂.execution_provider)
    (ht : t ≠ "") :
    build_command (req₁.model.getD "") req₁.precision req₁.execution_provider
        output_path =
      build_command (req₂.model.getD "") req₂.precision req₂.execution_provider
        output_path ∧
    envGet (build_env base (some t)) "HF_TOKEN" = some t ∧
    envGet (build_env base (some t)) "HUGGING_FACE_HUB_TOKEN" = some t ∧
    envGet (build_env base none) "HF_HUB_DISABLE_TELEMETRY" = some "1" ∧
    envGet (build_env base none) "TRANSFORMERS_OFFLINE" = some "0" ∧
    envGet (build_env base none) "HF_HUB_OFFLINE" = some "0" := by
  refine ⟨by rw [hm, hp, he], ?_, ?_, ?_, ?_, ?_⟩ <;>
    simp [build_env, envGet, ht, List.foldl_append]

/-- Witness for C7: two concrete requests differing only in the token, and
a concrete base environment. -/
theorem c7_token_only_in_environment_witness :
    (GenRequest.model ⟨true, some "gpt2", "fp32", "cpu", some "hf_secret"⟩ =
      GenRequest.model ⟨true, some "gpt2", "fp32", "cpu", none⟩) ∧
    ("hf_secret" : String) ≠ "" ∧
    (build_command "gpt2" "fp32" "cpu" "/app/tmp/req0/model_output" =
      build_command "gpt2" "fp32" "cpu" "/app/tmp/req0/model_output" ∧
     envGet (build_env [("PATH", "/usr/bin")] (some "hf_secret")) "HF_TOKEN" =
      some "hf_secret" ∧
     envGet (build_env [("PATH", "/usr/bin")] (some "hf_secret"))
        "HUGGING_FACE_HUB_TOKEN" = some "hf_secret" ∧
     envGet (build_env [("PATH", "/usr/bin")] none) "HF_HUB_DISABLE_TELEMETRY" =
      some "1" ∧
     envGet (build_env [("PATH", "/usr/bin")] none) "TRANSFORMERS_OFFLINE" =
      some "0" ∧
     envGet (build_env [("PATH", "/usr/bin")] none) "HF_HUB_OFFLINE" =
      some "0") :=
  ⟨rfl, by decide,
   c7_token_only_in_environment
     ⟨true, some "gpt2", "fp32", "cpu", some "hf_secret"⟩
     ⟨true, some "gpt2", "fp32", "cpu", none⟩
     "/app/tmp/req0/model_output" [("PATH", "/usr/bin")] "hf_secret"
     rfl rfl rfl (by decide)⟩

/-- Claim C9: a fully successful request is answered with the archive as a
file attachment (status 200) whose download name is the model identifier
with "/" replaced by "_", followed by the precision and the execution
provider, with a .zip extension. -/
theorem c9_success_attachment_name (req : GenRequest) (w : World)
    (out err : String)
    (hv : validate req = none)
    (hr : job_outcome req w = ProcResult.exited 0 out err)
    (ho : w.output_entries.getD [] ≠ [])
    (ha : w.archive_result = Except.ok ())
    (hx : w.archive_exists = true) :
    (generate_model req w).resp =
      Resp.file
        (w.temp_dir ++ "/" ++
          (replaceSlash (req.model.getD "") ++ "_" ++ req.precision ++ "_" ++
            req.execution_provider) ++ ".zip")
        (replaceSlash (req.model.getD "") ++ "_" ++ req.precision ++ "_" ++
          req.execution_provider ++ ".zip")
        "application/zip" ∧
    (generate_model req w).resp.statusCode = 200 := by
  have hr2 : w.run
      (build_command (req.model.getD "") req.precision req.execution_provider
        (w.temp_dir ++ "/model_output"))
      (build_env w.base_env req.token) = ProcResult.exited 0 out err := hr
  have hmain : (generate_model req w).resp =
      Resp.file
        (w.temp_dir ++ "/" ++
          (replaceSlash (req.model.getD "") ++ "_" ++ req.precision ++ "_" ++
            req.execution_provider) ++ ".zip")
        (replaceSlash (req.model.getD "") ++ "_" ++ req.precision ++ "_" ++
          req.execution_provider ++ ".zip")
        "application/zip" := by
    simp only [generate_model, hv]
    rw [hr2]
    simp [ho, ha, hx]
  exact ⟨hmain, by rw [hmain]; rfl⟩

/-- Witness for C9: the end-to-end gpt2/fp32/cpu scenario yields the
attachment gpt2_fp32_cpu.zip with status 200. -/
theorem c9_success_attachment_name_witness :
    validate gpt2Request = none ∧
    (generate_model gpt2Request successWorld).resp =
      Resp.file "/app/tmp/req0/gpt2_fp32_cpu.zip" "gpt2_fp32_cpu.zip"
        "application/zip" ∧
    (generate_model gpt2Request successWorld).resp.statusCode = 200 := by
  have h := c9_success_attachment_name gpt2Request successWorld "done" ""
    (by decide) rfl (by decide) rfl rfl
  exact ⟨by decide, by rw [h.1]; rfl, h.2⟩

/-- Claim C10: the validation checks fire in the fixed order content-type,
missing model, precision membership, provider membership, combination;
each possible validation error is returned exactly when its check is the
first to fail, each is mapped to its own 400 response, and the model field
is tested only for Python truthiness (non-emptiness). -/
theorem c10_validation_precedence (req : GenRequest) (w : World) :
    (validate req = some ValidationError.badContentType ↔
      req.is_json = false) ∧
    (validate req = some ValidationError.missingModel ↔
      req.is_json = true ∧ req.model.getD "" = "") ∧
    (validate req = some ValidationError.unsupportedPrecision ↔
      req.is_json = true ∧ req.model.getD "" ≠ "" ∧
      req.precision ∉ SUPPORTED_PRECISIONS) ∧
    (validate req = some ValidationError.unsupportedProvider ↔
      req.is_json = true ∧ req.model.getD "" ≠ "" ∧
      req.precision ∈ SUPPORTED_PRECISIONS ∧
      req.execution_provider ∉ SUPPORTED_EXECUTION_PROVIDERS) ∧
    (validate req = some ValidationError.invalidCombination ↔
      req.is_json = true ∧ req.model.getD "" ≠ "" ∧
      req.precision ∈ SUPPORTED_PRECISIONS ∧
      req.execution_provider ∈ SUPPORTED_EXECUTION_PROVIDERS ∧
      (req.precision, req.execution_provider) ∉ VALID_COMBINATIONS) ∧
    (validate req = some ValidationError.badContentType →
      (generate_model req w).resp =
        Resp.json 400 [("error", "Content-Type must be application/json")]) ∧
    (validate req = some ValidationError.missingModel →
      (generate_model req w).resp =
        Resp.json 400 [("error", "model parameter is required")]) ∧
    (validate req = some ValidationError.unsupportedPrecision →
      (generate_model req w).resp =
        Resp.json 400 [("error", "Unsupported precision: " ++ req.precision ++
          ". Supported: " ++ pyStrList SUPPORTED_PRECISIONS)]) ∧
    (validate req = some ValidationError.unsupportedProvider →
      (generate_model req w).resp =
        Resp.json 400 [("error", "Unsupported execution_provider: " ++
          req.execution_provider ++ ". Supported: " ++
          pyStrList SUPPORTED_EXECUTION_PROVIDERS)]) ∧
    (validate req = some ValidationError.invalidCombination →
      (generate_model req w).resp =
        Resp.json 400 [("error", "Invalid combination: " ++ req.precision ++
          " + " ++ req.execution_provider ++ ". Valid combinations: " ++
          pyStrPairList VALID_COMBINATIONS)]) := by
  refine ⟨?_, ?_, ?_, ?_, ?_,
    fun h => by simp only [generate_model, h],
    fun h => by simp only [generate_model, h],
    fun h => by simp only [generate_model, h],
    fun h => by simp only [generate_model, h],
    fun h => by simp only [generate_model, h]⟩ <;>
  · unfold validate
    split_ifs with h1 h2 h3 h4 h5 <;> simp_all

/-- Witness for C10: a request with no model and an unknown precision gets
the missing-model error (never the precision error), and a model field is
accepted whatever its shape as long as it is non-empty. -/
theorem c10_validation_precedence_witness :
    validate ⟨true, none, "nosuch", "gpu9000", none⟩ =
      some ValidationError.missingModel ∧
    (generate_model ⟨true, none, "nosuch", "gpu9000", none⟩ timeoutWorld).resp =
      Resp.json 400 [("error", "model parameter is required")] ∧
    validate ⟨true, some "!! any weird value/. ", "fp32", "cpu", none⟩ = none := by
  obtain ⟨-, h2, -, -, -, -, h7, -, -, -⟩ :=
    c10_validation_precedence ⟨true, none, "nosuch", "gpu9000", none⟩ timeoutWorld
  have hv : validate ⟨true, none, "nosuch", "gpu9000", none⟩ =
      some ValidationError.missingModel := h2.mpr ⟨rfl, rfl⟩
  exact ⟨hv, h7 hv, by decide⟩

end OnnxGen
